import Mathlib

/-
  A shallow embedding of the pyphishtank client (src/__init__.py) and a
  verification of its specification.

  The module defines:
    * exception classes PhishTankError, PhishTankAPILimitExceeded,
      PhishTankAPILimitReached (modelled by the error type PTErr);
    * class Result with fields url, in_database, phish_id, phish_detail_page,
      verified, verified_at, valid, submitted_at, a date coercion
      force_date using strptime with format %Y-%m-%dT%H:%M:%S+00:00,
      a derived truthiness-based accessor for valid, and field-by-field
      equality;
    * class PhishTank with class attributes _requests_made = 0 and
      _requests_available = 50, a requests_left method reading the
      never-assigned attribute _requests, and a check method that posts
      to the service, stores the raw X-Request-Count / X-Request-Limit
      header strings (defaults 0 / 50 when absent), raises
      PhishTankAPILimitExceeded with the raw X-Request-Limit-Interval
      header (default 300) on status 509, raises PhishTankError on an
      errortext body, and otherwise builds a Result from body["results"].

  Python scalar values are modelled by PVal, JSON bodies by two-level
  association lists, header lookup is case-insensitive as in the requests
  library, and raised exceptions become Except.error values.
-/

set_option autoImplicit false

/-- A Python scalar value as it occurs in a decoded JSON object:
None, bool, int or str. -/
inductive PVal where
  | null
  | bool (b : Bool)
  | int (n : Int)
  | str (s : String)
deriving DecidableEq

/-- Python truthiness of a scalar: None, False, 0 and "" are falsy. -/
def truthy : PVal → Bool
  | .null => false
  | .bool b => b
  | .int n => decide (n ≠ 0)
  | .str s => decide (s ≠ "")

/-- Python equality (==) on scalars. bool is an int subclass in Python,
so True == 1 and False == 0; other cross-type comparisons are unequal. -/
def pvalEq : PVal → PVal → Bool
  | .null, .null => true
  | .bool a, .bool b => decide (a = b)
  | .int a, .int b => decide (a = b)
  | .bool a, .int b => decide ((if a then (1 : Int) else 0) = b)
  | .int a, .bool b => decide (a = (if b then (1 : Int) else 0))
  | .str a, .str b => decide (a = b)
  | _, _ => false

/-- A value of a top-level JSON object: a scalar or a nested object
(the latter is what the "results" key maps to). -/
inductive BVal where
  | prim (v : PVal)
  | obj (fields : List (String × PVal))
deriving DecidableEq

/-- A decoded datetime.datetime value (time fields only, as produced by
strptime on the service's date format; microseconds are always zero). -/
structure DateTime where
  year : Nat
  month : Nat
  day : Nat
  hour : Nat
  minute : Nat
  second : Nat
deriving DecidableEq

/-- A value stored in a Result field: the raw scalar from the payload, or
the datetime produced by the date coercion. -/
inductive RVal where
  | raw (v : PVal)
  | date (d : DateTime)
deriving DecidableEq

/-- Python equality on Result field values: scalars compare by pvalEq,
datetimes by value; a datetime never equals a scalar. -/
def rvalEq : RVal → RVal → Bool
  | .raw a, .raw b => pvalEq a b
  | .date a, .date b => decide (a = b)
  | _, _ => false

/-- A header value as stored by check: the raw header string when the
header is present, or the integer default passed to headers.get. -/
inductive HVal where
  | int (n : Int)
  | str (s : String)
deriving DecidableEq

/-- The exceptions the module can raise, plus the built-in Python
exceptions its code can produce (strptime and json raise ValueError,
strptime on a non-string raises TypeError, body["results"] raises
KeyError when absent, attribute lookups raise AttributeError). -/
inductive PTErr where
  | phishTankError (msg : BVal)
  | limitExceeded (interval : HVal)
  | limitReached
  | valueError
  | typeError
  | keyError
  | attributeError
deriving DecidableEq

/-- The JSON object passed to Result: string keys to scalar values. -/
abbrev Payload := List (String × PVal)

/-- dict.get(key, None): the value under the key, or None when absent
(an explicit JSON null and an absent key are indistinguishable). -/
def pget (p : Payload) (k : String) : PVal :=
  match p.lookup k with
  | some v => v
  | none => PVal.null

/- ### Date parsing: strptime with format %Y-%m-%dT%H:%M:%S+00:00

CPython compiles the format to a case-insensitive regular expression:
%Y is exactly four digits; %m, %d, %H, %M, %S each accept one or two
digits within their range (month 1-12, day 1-31, hour 0-23, minute 0-59,
second 0-61); the remaining characters are literals. The matched values
are then passed to the datetime constructor, which additionally requires
year >= 1, a day that exists in the month, and second <= 59. The model
below folds the constructor checks into the parse: the net effect of the
source is success exactly when both succeed, failure (ValueError)
otherwise. -/

/-- The character with code 48 + n; for n <= 9 this is the digit n. -/
def digitChar (n : Nat) : Char := Char.ofNat (48 + n)

/-- Numeric value of a list of ASCII digit characters. -/
def digitsVal (cs : List Char) : Nat :=
  cs.foldl (fun a c => a * 10 + (c.toNat - 48)) 0

/-- Split a character list on a separator character; mirrors how the
compiled strptime pattern carves the input at the literal separators. -/
def splitOnChar (sep : Char) : List Char → List (List Char)
  | [] => [[]]
  | c :: cs =>
    match splitOnChar sep cs with
    | [] => [[c]]
    | g :: gs => if c = sep then [] :: g :: gs else (c :: g) :: gs

/-- Case-normalize the one cased literal of the format: strptime matches
case-insensitively, so an input 'T' or 't' both match the literal T. -/
def normT (c : Char) : Char := if c = 'T' then 't' else c

/-- A one-or-two-digit numeric field whose value lies in [lo, hi]. -/
def numField (lo hi : Nat) (cs : List Char) : Option Nat :=
  if 1 ≤ cs.length ∧ cs.length ≤ 2 ∧ cs.all Char.isDigit = true ∧
     lo ≤ digitsVal cs ∧ digitsVal cs ≤ hi
  then some (digitsVal cs) else none

/-- The four-digit year field of %Y. -/
def year4 (cs : List Char) : Option Nat :=
  if cs.length = 4 ∧ cs.all Char.isDigit = true
  then some (digitsVal cs) else none

/-- Gregorian leap year, as used by datetime's calendar. -/
def isLeap (y : Nat) : Bool :=
  (y % 4 = 0 ∧ y % 100 ≠ 0) ∨ y % 400 = 0

/-- Number of days in a month of a year, as validated by datetime. -/
def daysInMonth (y m : Nat) : Nat :=
  if m = 2 then (if isLeap y then 29 else 28)
  else if m = 4 ∨ m = 6 ∨ m = 9 ∨ m = 11 then 30 else 31

/-- strptime with format %Y-%m-%dT%H:%M:%S+00:00 followed by the
datetime constructor, on a character list; none models ValueError. -/
def parseDateChars (cs : List Char) : Option DateTime :=
  if cs.length < 6 then none
  else if cs.drop (cs.length - 6) = ['+', '0', '0', ':', '0', '0'] then
    match splitOnChar 't' ((cs.take (cs.length - 6)).map normT) with
    | [dpart, tpart] =>
      match splitOnChar '-' dpart, splitOnChar ':' tpart with
      | [ys, ms, ds], [hs, mins, ss] =>
        match year4 ys, numField 1 12 ms, numField 1 31 ds,
              numField 0 23 hs, numField 0 59 mins, numField 0 59 ss with
        | some y, some mo, some d, some h, some mi, some s =>
          if 1 ≤ y ∧ d ≤ daysInMonth y mo
          then some { year := y, month := mo, day := d,
                      hour := h, minute := mi, second := s }
          else none
        | _, _, _, _, _, _ => none
      | _, _ => none
    | _ => none
  else none

/-- strptime with format %Y-%m-%dT%H:%M:%S+00:00 on a string. -/
def parseDate (s : String) : Option DateTime :=
  parseDateChars s.data

/- ### The Result class -/

/-- Result: the typed snapshot built from the "results" object. -/
structure Result where
  url : RVal
  in_database : RVal
  phish_id : RVal
  phish_detail_page : RVal
  verified : RVal
  verified_at : RVal
  valid : RVal
  submitted_at : RVal
deriving DecidableEq

/-- Result.__force_date: strptime the value with the fixed format.
On a non-string Python raises TypeError, on a non-matching string
ValueError. -/
def force_date (v : PVal) : Except PTErr DateTime :=
  match v with
  | .str s =>
    match parseDate s with
    | some d => Except.ok d
    | none => Except.error PTErr.valueError
  | _ => Except.error PTErr.typeError

/-- The date-field step of Result.__init__: a truthy value is coerced
through force_date, a falsy value is stored unchanged. -/
def dateField (v : PVal) : Except PTErr RVal :=
  if truthy v then
    match force_date v with
    | .ok d => Except.ok (RVal.date d)
    | .error e => Except.error e
  else Except.ok (RVal.raw v)

/-- Result.__init__ on a results payload: every field is read with
dict.get(key, None); verified_at is coerced first, then submitted_at;
a failing coercion propagates as the raised exception. -/
def mkResult (p : Payload) : Except PTErr Result :=
  match dateField (pget p "verified_at") with
  | .error e => Except.error e
  | .ok va =>
    match dateField (pget p "submitted_at") with
    | .error e => Except.error e
    | .ok sa =>
      Except.ok
        { url := RVal.raw (pget p "url"),
          in_database := RVal.raw (pget p "in_database"),
          phish_id := RVal.raw (pget p "phish_id"),
          phish_detail_page := RVal.raw (pget p "phish_detail_page"),
          verified := RVal.raw (pget p "verified"),
          verified_at := va,
          valid := RVal.raw (pget p "valid"),
          submitted_at := sa }

/-- The derived accessor on Result for "known to be a phish": True when
the stored valid field is truthy, False otherwise. -/
def isUnsafe (r : Result) : Bool :=
  match r.valid with
  | .raw v => truthy v
  | .date _ => true

/-- Result.__eq__: field-by-field comparison over the eight slots,
returning False at the first differing field. -/
def resultEq (a b : Result) : Bool :=
  rvalEq a.url b.url &&
  rvalEq a.in_database b.in_database &&
  rvalEq a.phish_id b.phish_id &&
  rvalEq a.phish_detail_page b.phish_detail_page &&
  rvalEq a.verified b.verified &&
  rvalEq a.verified_at b.verified_at &&
  rvalEq a.valid b.valid &&
  rvalEq a.submitted_at b.submitted_at

/- ### The PhishTank client -/

/-- The state of a PhishTank instance. __init__ sets apikey and api_url;
the class attributes give requests_made = 0 and requests_available = 50
until check overwrites them. requestsAttr models the attribute named
_requests read by requests_left: it is none while the attribute is
undefined, and no code in the module ever assigns it. -/
structure PhishTank where
  apikey : Option String
  api_url : String
  requests_made : HVal
  requests_available : HVal
  requestsAttr : Option HVal
deriving DecidableEq

/-- PhishTank.__init__(api_url, apikey). -/
def initState (apikey : Option String) (api_url : String) : PhishTank :=
  { apikey := apikey, api_url := api_url,
    requests_made := HVal.int 0, requests_available := HVal.int 50,
    requestsAttr := none }

/-- One raw HTTP reply from the external collaborator: status code,
headers, and the decoded JSON body (none when the body is not a JSON
object, in which case response.json() raises ValueError). -/
structure Reply where
  status : Nat
  headers : List (String × String)
  body : Option (List (String × BVal))
deriving DecidableEq

/-- ASCII lower-casing of a character. -/
def lowerChar (c : Char) : Char :=
  if 'A' ≤ c ∧ c ≤ 'Z' then Char.ofNat (c.toNat + 32) else c

/-- Case-insensitive string comparison, as used by the requests
library's header dictionary. -/
def ciEq (a b : String) : Bool :=
  decide (a.data.map lowerChar = b.data.map lowerChar)

/-- response.headers.get(key): case-insensitive header lookup. -/
def hget (hs : List (String × String)) (k : String) : Option String :=
  match hs.find? (fun kv => ciEq kv.1 k) with
  | some kv => some kv.2
  | none => none

/-- Lines 191-192 of check: store the raw X-Request-Count and
X-Request-Limit header strings, falling back to the integer defaults
0 and 50 passed to headers.get when a header is absent. -/
def updateBudget (s : PhishTank) (r : Reply) : PhishTank :=
  { s with
    requests_made :=
      match hget r.headers "X-Request-Count" with
      | some v => HVal.str v
      | none => HVal.int 0,
    requests_available :=
      match hget r.headers "X-Request-Limit" with
      | some v => HVal.str v
      | none => HVal.int 50 }

/-- Lines 195-203 of check: on status 509 raise
PhishTankAPILimitExceeded with the raw X-Request-Limit-Interval header
(integer default 300), otherwise decode the body, raise PhishTankError
on an errortext key, and build a Result from body["results"]. The
outcome depends only on the reply, never on the client state. -/
def checkOutcome (r : Reply) : Except PTErr Result :=
  if r.status = 509 then
    Except.error (PTErr.limitExceeded
      (match hget r.headers "X-Request-Limit-Interval" with
       | some v => HVal.str v
       | none => HVal.int 300))
  else
    match r.body with
    | none => Except.error PTErr.valueError
    | some data =>
      match data.lookup "errortext" with
      | some msg => Except.error (PTErr.phishTankError msg)
      | none =>
        match data.lookup "results" with
        | none => Except.error PTErr.keyError
        | some (BVal.prim _) => Except.error PTErr.attributeError
        | some (BVal.obj p) => mkResult p

instance {ε α : Type} [DecidableEq ε] [DecidableEq α] : DecidableEq (Except ε α) := fun x y =>
  match x, y with
  | .ok a, .ok b =>
    if h : a = b then isTrue (congrArg Except.ok h)
    else isFalse (fun hc => h (by injection hc))
  | .error a, .error b =>
    if h : a = b then isTrue (congrArg Except.error h)
    else isFalse (fun hc => h (by injection hc))
  | .ok _, .error _ => isFalse (fun hc => Except.noConfusion hc)
  | .error _, .ok _ => isFalse (fun hc => Except.noConfusion hc)

/-- The observable effect of one call to PhishTank.check: the returned
value or raised exception, the updated client state, and whether the
HTTP POST to the collaborator was performed. -/
structure CheckOut where
  outcome : Except PTErr Result
  state : PhishTank
  networkCalled : Bool
deriving DecidableEq

/-- PhishTank.check(url) given the reply the collaborator returns for
the POST of {url, format: json, app_key}: the POST is performed
unconditionally (there is no local gate in the source), the budget
headers are stored, and the reply is normalized into an outcome. -/
def check (s : PhishTank) (url : String) (r : Reply) : CheckOut :=
  { outcome := checkOutcome r,
    state := updateBudget s r,
    networkCalled := true }

/-- PhishTank.requests_left: reads self._requests and compares it with
0; an undefined attribute raises AttributeError, a stored header string
would raise TypeError on the comparison. -/
def requests_left (s : PhishTank) : Except PTErr Bool :=
  match s.requestsAttr with
  | none => Except.error PTErr.attributeError
  | some (HVal.int n) => if 0 < n then Except.ok true else Except.ok false
  | some (HVal.str _) => Except.error PTErr.typeError

/-- The states a PhishTank instance can be in: freshly constructed, or
after any sequence of check calls. -/
inductive Reachable : PhishTank → Prop
  | init (k : Option String) (u : String) : Reachable (initState k u)
  | step (s : PhishTank) (url : String) (r : Reply) :
      Reachable s → Reachable (check s url r).state

/- ### Definitions rendering the specification's words

These are stated from the specification, to be compared with the
behaviour of the source definitions above. -/

/-- Two-digit zero-padded rendering of a number below 100. -/
def pad2 (n : Nat) : List Char := [digitChar (n / 10), digitChar (n % 10)]

/-- Four-digit zero-padded rendering of a number below 10000. -/
def pad4 (n : Nat) : List Char :=
  [digitChar (n / 1000), digitChar (n / 100 % 10),
   digitChar (n / 10 % 10), digitChar (n % 10)]

/-- The date and time portion of the specification's exact fixed-point
format YYYY-MM-DDTHH:MM:SS. -/
def dateCore (dt : DateTime) : List Char :=
  pad4 dt.year ++ '-' :: (pad2 dt.month ++ '-' :: (pad2 dt.day ++
    'T' :: (pad2 dt.hour ++ ':' :: (pad2 dt.minute ++ ':' :: pad2 dt.second))))

/-- The specification's exact fixed-point format
YYYY-MM-DDTHH:MM:SS+00:00 rendering of a timestamp. -/
def formatDate (dt : DateTime) : List Char :=
  dateCore dt ++ ['+', '0', '0', ':', '0', '0']

/-- A timestamp datetime can represent: year 1-9999, an existing
calendar day, and in-range time fields. -/
def validDT (dt : DateTime) : Bool :=
  decide (1 ≤ dt.year ∧ dt.year ≤ 9999 ∧ 1 ≤ dt.month ∧ dt.month ≤ 12 ∧
    1 ≤ dt.day ∧ dt.day ≤ daysInMonth dt.year dt.month ∧
    dt.hour ≤ 23 ∧ dt.minute ≤ 59 ∧ dt.second ≤ 59)

/-- Whether a string is exactly the specification's fixed-point format
YYYY-MM-DDTHH:MM:SS+00:00: it parses, and it equals the zero-padded
rendering of what it parses to. -/
def exactFormat (s : String) : Bool :=
  match parseDate s with
  | some dt => decide (s.data = formatDate dt)
  | none => false

/-- The integer a decimal string denotes, when it denotes one. -/
def parseIntStr (s : String) : Option Int :=
  match s.data with
  | [] => none
  | '-' :: ds =>
    if ds ≠ [] ∧ ds.all Char.isDigit = true
    then some (-(digitsVal ds : Int)) else none
  | ds =>
    if ds.all Char.isDigit = true
    then some ((digitsVal ds : Int)) else none

/-- The specification's invariant requests_available >= 0, read over a
stored budget value: the value must denote a nonnegative integer. -/
def budgetNonneg : HVal → Bool
  | .int n => decide (0 ≤ n)
  | .str s =>
    match parseIntStr s with
    | some n => decide (0 ≤ n)
    | none => false

/- ### Helper lemmas on characters, digit lists and splitting -/

theorem digitChar_toNat {k : Nat} (h : k ≤ 9) : (digitChar k).toNat = 48 + k := by
  interval_cases k <;> decide

theorem digitChar_isDigit {k : Nat} (h : k ≤ 9) : (digitChar k).isDigit = true := by
  interval_cases k <;> decide

theorem digit_ne {c d : Char} (hc : c.isDigit = true) (hd : d.isDigit = false) : c ≠ d := by
  intro h
  subst h
  rw [hc] at hd
  cases hd

theorem splitOnChar_ne_nil (sep : Char) (l : List Char) : splitOnChar sep l ≠ [] := by
  cases l with
  | nil => simp [splitOnChar]
  | cons c cs =>
    simp only [splitOnChar]
    rcases h : splitOnChar sep cs with _ | ⟨g, gs⟩
    · simp
    · dsimp only
      split <;> simp

theorem splitOnChar_no_sep (sep : Char) (l : List Char)
    (h : ∀ c ∈ l, c ≠ sep) : splitOnChar sep l = [l] := by
  induction l with
  | nil => rfl
  | cons c cs ih =>
    have hc : c ≠ sep := h c (List.mem_cons_self c cs)
    have ih' := ih (fun x hx => h x (List.mem_cons_of_mem c hx))
    simp only [splitOnChar, ih']
    simp [hc]

theorem splitOnChar_append_sep (sep : Char) (xs ys : List Char)
    (h : ∀ c ∈ xs, c ≠ sep) :
    splitOnChar sep (xs ++ sep :: ys) = xs :: splitOnChar sep ys := by
  induction xs with
  | nil =>
    simp only [List.nil_append, splitOnChar]
    rcases hy : splitOnChar sep ys with _ | ⟨g, gs⟩
    · exact absurd hy (splitOnChar_ne_nil sep ys)
    · simp
  | cons c cs ih =>
    have hc : c ≠ sep := h c (List.mem_cons_self c cs)
    have ih' := ih (fun x hx => h x (List.mem_cons_of_mem c hx))
    simp only [List.cons_append, splitOnChar, List.append_eq]
    rw [ih']
    simp [hc]

theorem pad2_all_digits {n : Nat} (h : n ≤ 99) : ∀ c ∈ pad2 n, c.isDigit = true := by
  intro c hc
  simp only [pad2, List.mem_cons, List.not_mem_nil, or_false] at hc
  rcases hc with rfl | rfl
  · exact digitChar_isDigit (by omega)
  · exact digitChar_isDigit (by omega)

theorem pad4_all_digits {n : Nat} (h : n ≤ 9999) : ∀ c ∈ pad4 n, c.isDigit = true := by
  intro c hc
  simp only [pad4, List.mem_cons, List.not_mem_nil, or_false] at hc
  rcases hc with rfl | rfl | rfl | rfl
  · exact digitChar_isDigit (by omega)
  · exact digitChar_isDigit (by omega)
  · exact digitChar_isDigit (by omega)
  · exact digitChar_isDigit (by omega)

theorem digitsVal_pad2 {n : Nat} (h : n ≤ 99) : digitsVal (pad2 n) = n := by
  have h1 : n / 10 ≤ 9 := by omega
  have h2 : n % 10 ≤ 9 := by omega
  simp only [digitsVal, pad2, List.foldl_cons, List.foldl_nil,
    digitChar_toNat h1, digitChar_toNat h2]
  omega

theorem digitsVal_pad4 {n : Nat} (h : n ≤ 9999) : digitsVal (pad4 n) = n := by
  have h1 : n / 1000 ≤ 9 := by omega
  have h2 : n / 100 % 10 ≤ 9 := by omega
  have h3 : n / 10 % 10 ≤ 9 := by omega
  have h4 : n % 10 ≤ 9 := by omega
  simp only [digitsVal, pad4, List.foldl_cons, List.foldl_nil,
    digitChar_toNat h1, digitChar_toNat h2, digitChar_toNat h3, digitChar_toNat h4]
  omega

theorem numField_pad2 {lo hi v : Nat} (h99 : v ≤ 99) (hlo : lo ≤ v) (hhi : v ≤ hi) :
    numField lo hi (pad2 v) = some v := by
  have hd : (pad2 v).all Char.isDigit = true := by
    rw [List.all_eq_true]
    exact pad2_all_digits h99
  rw [numField, if_pos]
  · rw [digitsVal_pad2 h99]
  · exact ⟨by simp [pad2], by simp [pad2], hd,
      by rw [digitsVal_pad2 h99]; exact hlo, by rw [digitsVal_pad2 h99]; exact hhi⟩

theorem year4_pad4 {y : Nat} (h : y ≤ 9999) : year4 (pad4 y) = some y := by
  have hd : (pad4 y).all Char.isDigit = true := by
    rw [List.all_eq_true]
    exact pad4_all_digits h
  rw [year4, if_pos]
  · rw [digitsVal_pad4 h]
  · exact ⟨by simp [pad4], hd⟩

theorem normT_of_digit {c : Char} (h : c.isDigit = true) : normT c = c := by
  rw [normT, if_neg]
  exact digit_ne h (by decide)

theorem map_normT_digits {l : List Char} (h : ∀ c ∈ l, c.isDigit = true) :
    l.map normT = l := by
  have h2 : l.map normT = l.map id := List.map_congr_left (fun c hc => normT_of_digit (h c hc))
  simpa using h2
theorem daysInMonth_le (y m : Nat) : daysInMonth y m ≤ 31 := by
  rw [daysInMonth]
  split
  · split <;> omega
  · split <;> omega

theorem parse_format_roundtrip (dt : DateTime) (h : validDT dt = true) :
    parseDateChars (formatDate dt) = some dt := by
  simp only [validDT, decide_eq_true_eq] at h
  obtain ⟨hy1, hy2, hm1, hm2, hd1, hd2, hh, hmi, hs⟩ := h
  have hm99 : dt.month ≤ 99 := by omega
  have hd31 : dt.day ≤ 31 := le_trans hd2 (daysInMonth_le _ _)
  have hd99 : dt.day ≤ 99 := by omega
  have hh99 : dt.hour ≤ 99 := by omega
  have hmi99 : dt.minute ≤ 99 := by omega
  have hs99 : dt.second ≤ 99 := by omega
  have hcore : (dateCore dt).length = 19 := by
    simp [dateCore, pad2, pad4]
  have hflen : (formatDate dt).length = 25 := by
    simp [formatDate, List.length_append, hcore]
  have hdrop : (formatDate dt).drop 19 = ['+', '0', '0', ':', '0', '0'] := by
    rw [formatDate, ← hcore, List.drop_left]
  have htake : (formatDate dt).take 19 = dateCore dt := by
    rw [formatDate, ← hcore, List.take_left]
  have hA : ∀ c ∈ pad4 dt.year ++ '-' :: (pad2 dt.month ++ '-' :: pad2 dt.day), c ≠ 't' := by
    intro c hc
    simp only [List.mem_append, List.mem_cons] at hc
    rcases hc with h4 | rfl | h2 | rfl | h2
    · exact digit_ne (pad4_all_digits hy2 c h4) (by decide)
    · decide
    · exact digit_ne (pad2_all_digits hm99 c h2) (by decide)
    · decide
    · exact digit_ne (pad2_all_digits hd99 c h2) (by decide)
  have hB : ∀ c ∈ pad2 dt.hour ++ ':' :: (pad2 dt.minute ++ ':' :: pad2 dt.second), c ≠ 't' := by
    intro c hc
    simp only [List.mem_append, List.mem_cons] at hc
    rcases hc with h2 | rfl | h2 | rfl | h2
    · exact digit_ne (pad2_all_digits hh99 c h2) (by decide)
    · decide
    · exact digit_ne (pad2_all_digits hmi99 c h2) (by decide)
    · decide
    · exact digit_ne (pad2_all_digits hs99 c h2) (by decide)
  have hmap : (dateCore dt).map normT =
      (pad4 dt.year ++ '-' :: (pad2 dt.month ++ '-' :: pad2 dt.day)) ++
        't' :: (pad2 dt.hour ++ ':' :: (pad2 dt.minute ++ ':' :: pad2 dt.second)) := by
    simp only [dateCore, List.map_append, List.map_cons]
    rw [map_normT_digits (pad4_all_digits hy2), map_normT_digits (pad2_all_digits hm99),
      map_normT_digits (pad2_all_digits hd99), map_normT_digits (pad2_all_digits hh99),
      map_normT_digits (pad2_all_digits hmi99), map_normT_digits (pad2_all_digits hs99)]
    simp only [show normT '-' = '-' from by decide, show normT 'T' = 't' from by decide,
      show normT ':' = ':' from by decide]
    simp [List.append_assoc]
  have hdashY : ∀ c ∈ pad4 dt.year, c ≠ '-' :=
    fun c hc => digit_ne (pad4_all_digits hy2 c hc) (by decide)
  have hdashM : ∀ c ∈ pad2 dt.month, c ≠ '-' :=
    fun c hc => digit_ne (pad2_all_digits hm99 c hc) (by decide)
  have hdashD : ∀ c ∈ pad2 dt.day, c ≠ '-' :=
    fun c hc => digit_ne (pad2_all_digits hd99 c hc) (by decide)
  have hcolH : ∀ c ∈ pad2 dt.hour, c ≠ ':' :=
    fun c hc => digit_ne (pad2_all_digits hh99 c hc) (by decide)
  have hcolMi : ∀ c ∈ pad2 dt.minute, c ≠ ':' :=
    fun c hc => digit_ne (pad2_all_digits hmi99 c hc) (by decide)
  have hcolS : ∀ c ∈ pad2 dt.second, c ≠ ':' :=
    fun c hc => digit_ne (pad2_all_digits hs99 c hc) (by decide)
  simp only [parseDateChars, hflen]
  rw [if_neg (by omega : ¬ (25 : Nat) < 6)]
  rw [show (25 : Nat) - 6 = 19 from rfl]
  rw [hdrop, if_pos rfl, htake, hmap]
  rw [splitOnChar_append_sep 't' _ _ hA]
  rw [splitOnChar_no_sep 't' _ hB]
  dsimp only
  rw [splitOnChar_append_sep '-' _ _ hdashY, splitOnChar_append_sep '-' _ _ hdashM,
    splitOnChar_no_sep '-' _ hdashD]
  rw [splitOnChar_append_sep ':' _ _ hcolH, splitOnChar_append_sep ':' _ _ hcolMi,
    splitOnChar_no_sep ':' _ hcolS]
  dsimp only
  rw [year4_pad4 hy2, numField_pad2 hm99 hm1 hm2, numField_pad2 hd99 hd1 hd31,
    numField_pad2 hh99 (Nat.zero_le _) hh, numField_pad2 hmi99 (Nat.zero_le _) hmi,
    numField_pad2 hs99 (Nat.zero_le _) hs]
  dsimp only
  rw [if_pos ⟨hy1, hd2⟩]
theorem reachable_requestsAttr (s : PhishTank) (h : Reachable s) : s.requestsAttr = none := by
  induction h with
  | init k u => rfl
  | step s url r hs ih => simpa [check, updateBudget] using ih

/-- Claim C9: in every reachable client state, requests_left fails with
AttributeError, because the attribute it reads is never defined; it can
never return a boolean. -/
theorem requests_left_fails (s : PhishTank) (h : Reachable s) :
    requests_left s = Except.error PTErr.attributeError := by
  simp only [requests_left, reachable_requestsAttr s h]

theorem requests_left_fails_witness :
    requests_left (initState none "http://checkurl.phishtank.com/checkurl/")
      = Except.error PTErr.attributeError :=
  requests_left_fails _ (Reachable.init none "http://checkurl.phishtank.com/checkurl/")

/-- Claim C7: for every non-509 reply whose JSON body contains an
errortext key, check fails with the service error carrying exactly the
errortext value, and no Result is produced. -/
theorem check_errortext (s : PhishTank) (url : String) (r : Reply)
    (data : List (String × BVal)) (msg : BVal)
    (h509 : r.status ≠ 509) (hb : r.body = some data)
    (he : data.lookup "errortext" = some msg) :
    (check s url r).outcome = Except.error (PTErr.phishTankError msg) := by
  simp only [check, checkOutcome, if_neg h509, hb, he]

theorem check_errortext_witness :
    (check (initState none "http://checkurl.phishtank.com/checkurl/") "http://example.com"
      { status := 200, headers := [],
        body := some [("errortext", BVal.prim (PVal.str "Invalid API Key"))] }).outcome
      = Except.error (PTErr.phishTankError (BVal.prim (PVal.str "Invalid API Key"))) :=
  check_errortext _ _ _ _ _ (by decide) rfl rfl

/-- Claim C10: a falsy verified_at or submitted_at value skips date
parsing entirely and is stored unchanged; construction succeeds. -/
theorem falsy_dates (p : Payload)
    (hva : truthy (pget p "verified_at") = false)
    (hsa : truthy (pget p "submitted_at") = false) :
    mkResult p = Except.ok
      { url := RVal.raw (pget p "url"), in_database := RVal.raw (pget p "in_database"),
        phish_id := RVal.raw (pget p "phish_id"),
        phish_detail_page := RVal.raw (pget p "phish_detail_page"),
        verified := RVal.raw (pget p "verified"),
        verified_at := RVal.raw (pget p "verified_at"),
        valid := RVal.raw (pget p "valid"),
        submitted_at := RVal.raw (pget p "submitted_at") } := by
  simp only [mkResult, dateField, hva, hsa, Bool.false_eq_true, if_false]

theorem falsy_dates_witness :
    mkResult [("verified_at", PVal.str ""), ("submitted_at", PVal.int 0)] = Except.ok
      { url := RVal.raw PVal.null, in_database := RVal.raw PVal.null,
        phish_id := RVal.raw PVal.null, phish_detail_page := RVal.raw PVal.null,
        verified := RVal.raw PVal.null, verified_at := RVal.raw (PVal.str ""),
        valid := RVal.raw PVal.null, submitted_at := RVal.raw (PVal.int 0) } := by
  exact falsy_dates _ (by decide) (by decide)

/-- Claim C2 (amended): on a 509 reply check fails with the limit
exception whose interval is the raw header value when the header is
present and the integer 300 when absent, and the body is never
consulted. -/
theorem check_509 (s : PhishTank) (url : String) (r : Reply) (h : r.status = 509) :
    (hget r.headers "X-Request-Limit-Interval" = none →
      (check s url r).outcome = Except.error (PTErr.limitExceeded (HVal.int 300))) ∧
    (∀ v, hget r.headers "X-Request-Limit-Interval" = some v →
      (check s url r).outcome = Except.error (PTErr.limitExceeded (HVal.str v))) ∧
    (∀ b, (check s url { status := r.status, headers := r.headers, body := b }).outcome
      = (check s url r).outcome) := by
  refine ⟨fun hn => ?_, fun v hv => ?_, fun b => ?_⟩
  · simp only [check, checkOutcome, if_pos h, hn]
  · simp only [check, checkOutcome, if_pos h, hv]
  · simp only [check, checkOutcome, if_pos h]

theorem check_509_witness :
    (check (initState none "u") "x" { status := 509, headers := [], body := none }).outcome
      = Except.error (PTErr.limitExceeded (HVal.int 300)) :=
  (check_509 (initState none "u") "x" { status := 509, headers := [], body := none } rfl).1 rfl

theorem check_509_counterexample :
    (check (initState none "u") "x"
      { status := 509, headers := [("X-Request-Limit-Interval", "600 Seconds")],
        body := none }).outcome
      = Except.error (PTErr.limitExceeded (HVal.str "600 Seconds")) ∧
    (check (initState none "u") "x"
      { status := 509, headers := [("X-Request-Limit-Interval", "600 Seconds")],
        body := none }).outcome
      ≠ Except.error (PTErr.limitExceeded (HVal.int 600)) := by
  exact ⟨by decide, by decide⟩

/-- Claim C3 (amended): an absent budget header resets the counter to
its default (0 or 50) rather than retaining the previous value; a
present header value, well-formed or not, overwrites local state as the
raw string; the update itself never raises. -/
theorem budget_update (s : PhishTank) (url : String) (r : Reply) :
    (hget r.headers "X-Request-Count" = none →
      (check s url r).state.requests_made = HVal.int 0) ∧
    (∀ v, hget r.headers "X-Request-Count" = some v →
      (check s url r).state.requests_made = HVal.str v) ∧
    (hget r.headers "X-Request-Limit" = none →
      (check s url r).state.requests_available = HVal.int 50) ∧
    (∀ v, hget r.headers "X-Request-Limit" = some v →
      (check s url r).state.requests_available = HVal.str v) := by
  refine ⟨fun hn => ?_, fun v hv => ?_, fun hn => ?_, fun v hv => ?_⟩
  · simp only [check, updateBudget, hn]
  · simp only [check, updateBudget, hv]
  · simp only [check, updateBudget, hn]
  · simp only [check, updateBudget, hv]

theorem budget_update_witness :
    (check (initState none "u") "x"
      { status := 200, headers := [("X-Request-Count", "7")],
        body := some [("results", BVal.obj [])] }).state.requests_made = HVal.str "7" :=
  (budget_update (initState none "u") "x"
    { status := 200, headers := [("X-Request-Count", "7")],
      body := some [("results", BVal.obj [])] }).2.1 "7" (by decide)

theorem budget_update_counterexample :
    ((check (initState none "u") "x"
       { status := 200, headers := [("X-Request-Count", "7"), ("X-Request-Limit", "100")],
         body := some [("results", BVal.obj [])] }).state.requests_made = HVal.str "7") ∧
    ((check (check (initState none "u") "x"
       { status := 200, headers := [("X-Request-Count", "7"), ("X-Request-Limit", "100")],
         body := some [("results", BVal.obj [])] }).state "x2"
       { status := 200, headers := [],
         body := some [("results", BVal.obj [])] }).state.requests_made = HVal.int 0) ∧
    HVal.int 0 ≠ HVal.str "7" ∧
    ((check (initState none "u") "x"
       { status := 200, headers := [("X-Request-Limit", "banana")],
         body := some [("results", BVal.obj [])] }).state.requests_available
       = HVal.str "banana") := by
  exact ⟨by decide, by decide, by decide, by decide⟩

/-- Claim C8 (amended): requests_available denotes a nonnegative number
initially and after any reply lacking the X-Request-Limit header; a
present header overwrites it with the raw header string, which need not
denote a nonnegative number. -/
theorem requests_available_nonneg (k : Option String) (u : String)
    (s : PhishTank) (url : String) (r : Reply)
    (hn : hget r.headers "X-Request-Limit" = none) :
    budgetNonneg (initState k u).requests_available = true ∧
    budgetNonneg (check s url r).state.requests_available = true := by
  constructor
  · rfl
  · simp only [check, updateBudget, hn]
    rfl

theorem requests_available_nonneg_witness :
    budgetNonneg (initState none "u").requests_available = true ∧
    budgetNonneg (check (initState none "u") "x"
      { status := 200, headers := [],
        body := some [("results", BVal.obj [])] }).state.requests_available = true :=
  requests_available_nonneg none "u" (initState none "u") "x"
    { status := 200, headers := [], body := some [("results", BVal.obj [])] } rfl

theorem requests_available_nonneg_counterexample :
    budgetNonneg ((check (initState none "u") "x"
      { status := 200, headers := [("X-Request-Limit", "-3")],
        body := some [("results", BVal.obj [])] }).state.requests_available) = false := by
  decide

/-- Claim C1: evidence that check performs the network call and never
raises the locally-predicted limit exception, even from a state whose
stored budget is exhausted (X-Request-Count: 50 of X-Request-Limit: 50
was observed). -/
theorem checkIgnoresBudget :
    ((check (initState none "u") "http://example.com"
       { status := 200, headers := [("X-Request-Count", "50"), ("X-Request-Limit", "50")],
         body := some [("results", BVal.obj [])] }).state.requests_made = HVal.str "50") ∧
    ((check (initState none "u") "http://example.com"
       { status := 200, headers := [("X-Request-Count", "50"), ("X-Request-Limit", "50")],
         body := some [("results", BVal.obj [])] }).state.requests_available = HVal.str "50") ∧
    ((check (check (initState none "u") "http://example.com"
       { status := 200, headers := [("X-Request-Count", "50"), ("X-Request-Limit", "50")],
         body := some [("results", BVal.obj [])] }).state "http://example.com"
       { status := 200, headers := [("X-Request-Count", "50"), ("X-Request-Limit", "50")],
         body := some [("results", BVal.obj [])] }).networkCalled = true) ∧
    ((check (check (initState none "u") "http://example.com"
       { status := 200, headers := [("X-Request-Count", "50"), ("X-Request-Limit", "50")],
         body := some [("results", BVal.obj [])] }).state "http://example.com"
       { status := 200, headers := [("X-Request-Count", "50"), ("X-Request-Limit", "50")],
         body := some [("results", BVal.obj [])] }).outcome
       ≠ Except.error PTErr.limitReached) := by
  exact ⟨by decide, by decide, rfl, by decide⟩
theorem pvalEq_refl (v : PVal) : pvalEq v v = true := by
  cases v <;> simp [pvalEq]

theorem rvalEq_refl (v : RVal) : rvalEq v v = true := by
  cases v <;> simp [rvalEq, pvalEq_refl]

theorem resultEq_refl (r : Result) : resultEq r r = true := by
  simp [resultEq, rvalEq_refl]

/-- Claim C4 (amended): construction from identical payloads yields
equal Results, and Result equality holds exactly when all eight fields
compare equal; differing payloads can still yield equal Results. -/
theorem resultEquality :
    (∀ (p : Payload) (r1 r2 : Result),
      mkResult p = Except.ok r1 → mkResult p = Except.ok r2 → resultEq r1 r2 = true) ∧
    (∀ r1 r2 : Result, resultEq r1 r2 = true ↔
      (rvalEq r1.url r2.url = true ∧ rvalEq r1.in_database r2.in_database = true ∧
       rvalEq r1.phish_id r2.phish_id = true ∧
       rvalEq r1.phish_detail_page r2.phish_detail_page = true ∧
       rvalEq r1.verified r2.verified = true ∧ rvalEq r1.verified_at r2.verified_at = true ∧
       rvalEq r1.valid r2.valid = true ∧ rvalEq r1.submitted_at r2.submitted_at = true)) := by
  constructor
  · intro p r1 r2 h1 h2
    rw [h1] at h2
    injection h2 with h
    rw [h]
    exact resultEq_refl r2
  · intro r1 r2
    simp [resultEq, Bool.and_eq_true, and_assoc]

theorem resultEquality_witness :
    resultEq
      { url := RVal.raw PVal.null, in_database := RVal.raw PVal.null,
        phish_id := RVal.raw PVal.null, phish_detail_page := RVal.raw PVal.null,
        verified := RVal.raw PVal.null, verified_at := RVal.raw PVal.null,
        valid := RVal.raw PVal.null, submitted_at := RVal.raw PVal.null }
      { url := RVal.raw PVal.null, in_database := RVal.raw PVal.null,
        phish_id := RVal.raw PVal.null, phish_detail_page := RVal.raw PVal.null,
        verified := RVal.raw PVal.null, verified_at := RVal.raw PVal.null,
        valid := RVal.raw PVal.null, submitted_at := RVal.raw PVal.null } = true :=
  resultEquality.1 [] _ _ rfl rfl

theorem resultEquality_counterexample :
    ([] : Payload) ≠ [("foo", PVal.int 1)] ∧
    mkResult [] = Except.ok
      { url := RVal.raw PVal.null, in_database := RVal.raw PVal.null,
        phish_id := RVal.raw PVal.null, phish_detail_page := RVal.raw PVal.null,
        verified := RVal.raw PVal.null, verified_at := RVal.raw PVal.null,
        valid := RVal.raw PVal.null, submitted_at := RVal.raw PVal.null } ∧
    mkResult [("foo", PVal.int 1)] = Except.ok
      { url := RVal.raw PVal.null, in_database := RVal.raw PVal.null,
        phish_id := RVal.raw PVal.null, phish_detail_page := RVal.raw PVal.null,
        verified := RVal.raw PVal.null, verified_at := RVal.raw PVal.null,
        valid := RVal.raw PVal.null, submitted_at := RVal.raw PVal.null } ∧
    resultEq
      { url := RVal.raw PVal.null, in_database := RVal.raw PVal.null,
        phish_id := RVal.raw PVal.null, phish_detail_page := RVal.raw PVal.null,
        verified := RVal.raw PVal.null, verified_at := RVal.raw PVal.null,
        valid := RVal.raw PVal.null, submitted_at := RVal.raw PVal.null }
      { url := RVal.raw PVal.null, in_database := RVal.raw PVal.null,
        phish_id := RVal.raw PVal.null, phish_detail_page := RVal.raw PVal.null,
        verified := RVal.raw PVal.null, verified_at := RVal.raw PVal.null,
        valid := RVal.raw PVal.null, submitted_at := RVal.raw PVal.null } = true := by
  exact ⟨by decide, by decide, by decide, by decide⟩
theorem parseDate_ne_empty {v : String} {d : DateTime} (h : parseDate v = some d) : v ≠ "" := by
  intro hemp
  rw [hemp] at h
  have h0 : parseDate "" = none := rfl
  rw [h0] at h
  cases h

theorem truthy_str_of_ne {v : String} (h : v ≠ "") : truthy (PVal.str v) = true := by
  simp [truthy, h]

/-- Claim C5: a successful reply whose results payload has all eight
fields present and well-formed produces a Result whose fields equal the
payload's fields exactly, with the two dates parsed, and whose derived
accessor equals the payload's valid boolean. -/
theorem check_success_fields (s : PhishTank) (url : String) (r : Reply)
    (data : List (String × BVal)) (p : Payload)
    (u ind pid pdp ver : PVal) (b : Bool) (vas sas : String) (vd sd : DateTime)
    (h509 : r.status ≠ 509) (hb : r.body = some data)
    (hne : data.lookup "errortext" = none)
    (hres : data.lookup "results" = some (BVal.obj p))
    (hu : pget p "url" = u) (hind : pget p "in_database" = ind)
    (hpid : pget p "phish_id" = pid) (hpdp : pget p "phish_detail_page" = pdp)
    (hver : pget p "verified" = ver) (hvld : pget p "valid" = PVal.bool b)
    (hva : pget p "verified_at" = PVal.str vas) (hvd : parseDate vas = some vd)
    (hsa : pget p "submitted_at" = PVal.str sas) (hsd : parseDate sas = some sd) :
    (check s url r).outcome = Except.ok
      { url := RVal.raw u, in_database := RVal.raw ind, phish_id := RVal.raw pid,
        phish_detail_page := RVal.raw pdp, verified := RVal.raw ver,
        verified_at := RVal.date vd, valid := RVal.raw (PVal.bool b),
        submitted_at := RVal.date sd } ∧
    isUnsafe
      { url := RVal.raw u, in_database := RVal.raw ind, phish_id := RVal.raw pid,
        phish_detail_page := RVal.raw pdp, verified := RVal.raw ver,
        verified_at := RVal.date vd, valid := RVal.raw (PVal.bool b),
        submitted_at := RVal.date sd } = b := by
  have htv : truthy (PVal.str vas) = true := truthy_str_of_ne (parseDate_ne_empty hvd)
  have hts : truthy (PVal.str sas) = true := truthy_str_of_ne (parseDate_ne_empty hsd)
  constructor
  · simp only [check, checkOutcome, if_neg h509, hb, hne, hres]
    simp only [mkResult, dateField, hva, hsa, htv, hts, if_true, force_date, hvd, hsd,
      hu, hind, hpid, hpdp, hver, hvld]
  · rfl

theorem check_success_fields_witness :
    (check (initState none "http://checkurl.phishtank.com/checkurl/") "http://example.com"
      { status := 200, headers := [],
        body := some [("results", BVal.obj
          [("url", PVal.str "http://example.com"), ("in_database", PVal.bool true),
           ("phish_id", PVal.str "12345"), ("phish_detail_page", PVal.str "http://detail"),
           ("verified", PVal.bool true), ("verified_at", PVal.str "2015-05-01T12:00:00+00:00"),
           ("valid", PVal.bool true),
           ("submitted_at", PVal.str "2015-04-30T01:02:03+00:00")])] }).outcome
      = Except.ok
      { url := RVal.raw (PVal.str "http://example.com"),
        in_database := RVal.raw (PVal.bool true),
        phish_id := RVal.raw (PVal.str "12345"),
        phish_detail_page := RVal.raw (PVal.str "http://detail"),
        verified := RVal.raw (PVal.bool true),
        verified_at := RVal.date
          { year := 2015, month := 5, day := 1, hour := 12, minute := 0, second := 0 },
        valid := RVal.raw (PVal.bool true),
        submitted_at := RVal.date
          { year := 2015, month := 4, day := 30, hour := 1, minute := 2, second := 3 } } ∧
    isUnsafe
      { url := RVal.raw (PVal.str "http://example.com"),
        in_database := RVal.raw (PVal.bool true),
        phish_id := RVal.raw (PVal.str "12345"),
        phish_detail_page := RVal.raw (PVal.str "http://detail"),
        verified := RVal.raw (PVal.bool true),
        verified_at := RVal.date
          { year := 2015, month := 5, day := 1, hour := 12, minute := 0, second := 0 },
        valid := RVal.raw (PVal.bool true),
        submitted_at := RVal.date
          { year := 2015, month := 4, day := 30, hour := 1, minute := 2, second := 3 } } = true := by
  apply check_success_fields <;> first | rfl | decide
theorem dateField_parse {v : String} {d : DateTime} (h : parseDate v = some d) :
    dateField (PVal.str v) = Except.ok (RVal.date d) := by
  simp only [dateField, truthy_str_of_ne (parseDate_ne_empty h), if_true, force_date, h]

theorem dateField_fail {v : String} (hne : v ≠ "") (h : parseDate v = none) :
    dateField (PVal.str v) = Except.error PTErr.valueError := by
  simp only [dateField, truthy_str_of_ne hne, if_true, force_date, h]

theorem dateField_falsy {v : PVal} (h : truthy v = false) :
    dateField v = Except.ok (RVal.raw v) := by
  simp only [dateField, h, Bool.false_eq_true, if_false]

theorem mkResult_verified_error (p : Payload) (e : PTErr)
    (h : dateField (pget p "verified_at") = Except.error e) :
    mkResult p = Except.error e := by
  unfold mkResult
  rw [h]

theorem mkResult_submitted_error (p : Payload) (va : RVal) (e : PTErr)
    (h1 : dateField (pget p "verified_at") = Except.ok va)
    (h2 : dateField (pget p "submitted_at") = Except.error e) :
    mkResult p = Except.error e := by
  unfold mkResult
  rw [h1, h2]

theorem mkResult_ok_fields (p : Payload) (r : Result) (hok : mkResult p = Except.ok r) :
    dateField (pget p "verified_at") = Except.ok r.verified_at ∧
    dateField (pget p "submitted_at") = Except.ok r.submitted_at := by
  unfold mkResult at hok
  rcases h1 : dateField (pget p "verified_at") with e | va <;> rw [h1] at hok
  · exact Except.noConfusion hok
  · rcases h2 : dateField (pget p "submitted_at") with e | sa <;> rw [h2] at hok
    · exact Except.noConfusion hok
    · injection hok with h
      rw [← h]
      exact ⟨rfl, rfl⟩

/-- Claim C6 (amended): a timestamp rendered in the exact format
YYYY-MM-DDTHH:MM:SS+00:00 parses back to exactly that timestamp; a
truthy date value strptime rejects fails construction with the date
error; a truthy date value strptime accepts (the parser also tolerates
unpadded month, day, hour, minute and second and a lowercase t) is
stored as the parsed timestamp; a falsy value skips parsing. -/
theorem dateParsing :
    (∀ dt : DateTime, validDT dt = true → parseDateChars (formatDate dt) = some dt) ∧
    (∀ (p : Payload) (v : String), pget p "verified_at" = PVal.str v → v ≠ "" →
      parseDate v = none → mkResult p = Except.error PTErr.valueError) ∧
    (∀ (p : Payload) (v : String) (d : DateTime) (r : Result),
      pget p "verified_at" = PVal.str v → parseDate v = some d →
      mkResult p = Except.ok r → r.verified_at = RVal.date d) ∧
    (∀ (p : Payload) (v : String), truthy (pget p "verified_at") = false →
      pget p "submitted_at" = PVal.str v → v ≠ "" →
      parseDate v = none → mkResult p = Except.error PTErr.valueError) ∧
    (∀ (p : Payload) (v : String) (d : DateTime) (r : Result),
      pget p "submitted_at" = PVal.str v → parseDate v = some d →
      mkResult p = Except.ok r → r.submitted_at = RVal.date d) := by
  refine ⟨parse_format_roundtrip, ?_, ?_, ?_, ?_⟩
  · intro p v hv hne hnone
    have h := dateField_fail hne hnone
    rw [← hv] at h
    exact mkResult_verified_error p _ h
  · intro p v d r hv hsome hok
    obtain ⟨h1, _⟩ := mkResult_ok_fields p r hok
    rw [hv, dateField_parse hsome] at h1
    injection h1 with h
    exact h.symm
  · intro p v hfal hsa hne hnone
    have h2 := dateField_fail hne hnone
    rw [← hsa] at h2
    exact mkResult_submitted_error p _ _ (dateField_falsy hfal) h2
  · intro p v d r hsa hsome hok
    obtain ⟨_, h2⟩ := mkResult_ok_fields p r hok
    rw [hsa, dateField_parse hsome] at h2
    injection h2 with h
    exact h.symm

theorem dateParsing_witness :
    mkResult [("verified_at", PVal.str "not-a-date")] = Except.error PTErr.valueError :=
  dateParsing.2.1 [("verified_at", PVal.str "not-a-date")] "not-a-date" rfl (by decide) rfl

theorem dateParsing_counterexample :
    exactFormat "" = false ∧
    mkResult [("verified_at", PVal.str "")] = Except.ok
      { url := RVal.raw PVal.null, in_database := RVal.raw PVal.null,
        phish_id := RVal.raw PVal.null, phish_detail_page := RVal.raw PVal.null,
        verified := RVal.raw PVal.null, verified_at := RVal.raw (PVal.str ""),
        valid := RVal.raw PVal.null, submitted_at := RVal.raw PVal.null } ∧
    exactFormat "2015-5-01T12:00:00+00:00" = false ∧
    mkResult [("verified_at", PVal.str "2015-5-01T12:00:00+00:00")] = Except.ok
      { url := RVal.raw PVal.null, in_database := RVal.raw PVal.null,
        phish_id := RVal.raw PVal.null, phish_detail_page := RVal.raw PVal.null,
        verified := RVal.raw PVal.null,
        verified_at := RVal.date
          { year := 2015, month := 5, day := 1, hour := 12, minute := 0, second := 0 },
        valid := RVal.raw PVal.null, submitted_at := RVal.raw PVal.null } := by
  exact ⟨by decide, by decide, by decide, by decide⟩
